import Mathlib

/-!
Verification of the pizza-ordering assistant (`src/main.py`).

The source program is a thin conversational client: a pure pricing function
`order_pizza`, a name-extraction helper `extract_name`, and a nested
conversation loop in `main` that talks to an external completion API.

Modelling conventions:
* Prices are embedded in `ℚ`.  In the Python source every price is a
  multiple of 1/4 (integer base prices plus surcharges of 0.75 and 0.5 per
  item), and such quarter-multiples, their products with list lengths, and
  their running sums are represented exactly by IEEE doubles far beyond any
  realistic list length, so rational arithmetic is a faithful model of the
  float arithmetic of the source on every reachable value.
* Python's `round(x, 2)` is modelled by `round2` below.  Python rounds
  half-to-even while Mathlib's `round` rounds half-up; the two differ only
  on exact half-cent ties, which cannot arise because every price is a
  multiple of 1/4 and hence has an exact 2-decimal representation.
* The external completion API, the console, and `json.loads` are external
  collaborators: their outcomes enter the model as an event script
  (`Event`), and a JSON-parse outcome is either `badJson` or an
  already-parsed key/value list.
-/

namespace Pizza

/-- Model of `round(q, 2)` of the Python source: round to 2 decimal places. -/
def round2 (q : ℚ) : ℚ := (round (q * 100) : ℚ) / 100

/-- Model of the Python method `str.lower` (ASCII range, which covers every
size string the lookup table distinguishes). -/
def pyLower (s : String) : String := ⟨s.data.map Char.toLower⟩

/-- Model of the Python method `str.strip`: remove leading and trailing
whitespace. -/
def pyStrip (s : String) : String :=
  ⟨((s.data.dropWhile Char.isWhitespace).reverse.dropWhile
      Char.isWhitespace).reverse⟩

/-- An order record, as built by `order_pizza` (src/main.py lines 48-54). -/
structure Order where
  size : String
  crust : String
  toppings : List String
  sauces : List String
  price : ℚ
  deriving Repr, DecidableEq

/-- The result dictionary returned by `order_pizza` (src/main.py lines 46-56). -/
structure OrderResult where
  status : String
  order : Order
  eta : String
  deriving Repr, DecidableEq

/-- Model of `base_price.get(size.lower(), 7)` where `base_price` is the
dict of src/main.py line 43; the argument here is the already-lowercased
size. -/
def base_price_get (s : String) : ℚ :=
  if s = "small" then 5
  else if s = "medium" then 7
  else if s = "large" then 9
  else if s = "extra large" then 11
  else 7

/-- The function `order_pizza` (src/main.py lines 42-56), for
schema-conformant inputs (size and crust strings, toppings and sauces lists
of strings). -/
def order_pizza (size crust : String) (toppings sauces : List String) :
    OrderResult :=
  let price : ℚ :=
    base_price_get (pyLower size)
      + 0.75 * (toppings.length : ℚ) + 0.5 * (sauces.length : ℚ)
  { status := "success"
    order :=
      { size := size
        crust := crust
        toppings := toppings
        sauces := sauces
        price := round2 price }
    eta := "20 minutes" }

/-- The base-price table exactly as the spec words it: a case-insensitive
lookup against \x7bsmall:5, medium:7, large:9, extra large:11\x7d defaulting
to 7 for any unrecognized size string. -/
def spec_base_price (size : String) : ℚ :=
  match pyLower size with
  | "small" => 5
  | "medium" => 7
  | "large" => 9
  | "extra large" => 11
  | _ => 7

/-- The price as the spec words it:
`base_price(size) + 0.75 * |toppings| + 0.5 * |sauces|`, rounded to 2
decimal places. -/
def spec_price (size : String) (nToppings nSauces : Nat) : ℚ :=
  round2 (spec_base_price size + 0.75 * (nToppings : ℚ) + 0.5 * (nSauces : ℚ))

/-- Rounding to 2 decimals is the identity on any rational that is an
integer number of hundredths; every price in this program is one (a
multiple of 1/4). -/
lemma round2_eq_self_of_den (q : ℚ) (n : ℤ) (h : q * 100 = (n : ℚ)) :
    round2 q = q := by
  have : round (q * 100) = n := by rw [h]; exact round_intCast n
  unfold round2
  rw [this]
  have h100 : (100 : ℚ) ≠ 0 := by norm_num
  field_simp at h ⊢
  linarith [h]

/-- Every price computed by the program, before rounding, is a multiple of
1/4, hence an integer number of hundredths. -/
lemma price_times_100_int (b : ℚ) (hb : ∃ k : ℤ, b = (k : ℚ)) (t s : Nat) :
    ∃ n : ℤ, (b + 0.75 * (t : ℚ) + 0.5 * (s : ℚ)) * 100 = (n : ℚ) := by
  obtain ⟨k, hk⟩ := hb
  refine ⟨k * 100 + 75 * t + 50 * s, ?_⟩
  subst hk
  push_cast
  ring

lemma base_price_get_int (s : String) : ∃ k : ℤ, base_price_get s = (k : ℚ) := by
  unfold base_price_get
  split
  · exact ⟨5, by norm_num⟩
  split
  · exact ⟨7, by norm_num⟩
  split
  · exact ⟨9, by norm_num⟩
  split
  · exact ⟨11, by norm_num⟩
  · exact ⟨7, by norm_num⟩

/-- The rounding step of `order_pizza` is vacuous: the raw price is already
exact to 2 decimal places. -/
lemma order_pizza_price_eq (size : String) (t s : List String) :
    round2 (base_price_get (pyLower size)
        + 0.75 * (t.length : ℚ) + 0.5 * (s.length : ℚ))
      = base_price_get (pyLower size)
        + 0.75 * (t.length : ℚ) + 0.5 * (s.length : ℚ) := by
  obtain ⟨n, hn⟩ :=
    price_times_100_int (base_price_get (pyLower size))
      (base_price_get_int (pyLower size)) t.length s.length
  exact round2_eq_self_of_den _ n hn

/-- The dict lookup of the source agrees with the table of the spec on
every size string. -/
lemma base_price_get_eq_spec (size : String) :
    base_price_get (pyLower size) = spec_base_price size := by
  unfold spec_base_price
  generalize pyLower size = s
  by_cases h1 : s = "small"
  · subst h1; rfl
  by_cases h2 : s = "medium"
  · subst h2; rfl
  by_cases h3 : s = "large"
  · subst h3; rfl
  by_cases h4 : s = "extra large"
  · subst h4; rfl
  · simp only [base_price_get, if_neg h1, if_neg h2, if_neg h3, if_neg h4]

/-! ## Name extraction (src/main.py lines 74-87 and 97-107) -/

/-- The function `extract_name` (src/main.py lines 74-87).  The completion
call itself is external; its outcome (the response content, or a
transport/API error) is the argument.  On success the content is stripped;
on failure the exception is re-raised as a `RuntimeError` carrying the
underlying cause. -/
def extract_name (resp : Except String String) : Except String String :=
  match resp with
  | .error e => .error ("Name-extraction failed: " ++ e)
  | .ok content => .ok (pyStrip content)

/-- The name-resolution logic of `main` (src/main.py lines 97-107): try
`extract_name`; on any exception fall back to the raw input; afterwards, if
the name is falsy (empty), fall back to the raw input as well. -/
def resolveName (raw_name_input : String) (resp : Except String String) :
    String :=
  match extract_name resp with
  | .error _ => raw_name_input
  | .ok name => if name = "" then raw_name_input else name

/-! ## The conversation loop (src/main.py lines 111-178)

The loop is modelled as a deterministic interpreter over a script of
external events.  Each `input()` consumes a `.line` event and each
completion request consumes a `.api` event.  JSON values appearing in
parsed function-call arguments are abstracted as strings, arrays of
strings, or `other` (any value outside the declared schema; such values
have no `.lower()`/`len()` and make the dynamic call fail). -/

/-- A JSON value carried in parsed function-call arguments. -/
inductive JVal where
  | str (s : String)
  | arr (xs : List String)
  | other
  deriving Repr, DecidableEq

/-- A transcript message: role, content, and — for role "function" — the
function name (src/main.py lines 154-158). -/
structure Msg where
  role : String
  content : String
  name : Option String := none
  deriving Repr, DecidableEq

/-- Model of the outcome of `json.loads` on the function-call arguments
(src/main.py lines 144-148): either a `JSONDecodeError`, or a parsed
JSON object given as its key/value pairs (keys are unique, as in a
Python dict). -/
inductive FnArgs where
  | badJson
  | parsed (kvs : List (String × JVal))
  deriving Repr, DecidableEq

/-- The message of a successful completion response: optional text content
and optional function call (src/main.py lines 136-143). -/
structure ApiMsg where
  content : Option String
  function_call : Option FnArgs
  deriving Repr, DecidableEq

/-- One external event consumed by the loop: a console input line, or the
outcome of a completion request (response or transport/API error). -/
inductive Event where
  | line (s : String)
  | api (r : Except String ApiMsg)
  deriving Repr

/-- The loop's mutable state: the transcript `messages`, the `orders`
list and the running `total` (src/main.py lines 111-116), plus a count of
completion requests issued (line 126), recorded to observe when the code
calls the API. -/
structure SessionState where
  messages : List Msg
  orders : List Order
  total : ℚ
  apiCalls : Nat
  deriving Repr, DecidableEq

/-- How a run of the loop ends. -/
inductive Outcome where
  /-- Normal end: `break` out of the outer loop and print the summary
  (src/main.py lines 167-178). -/
  | summary (st : SessionState)
  /-- `return` after a completion-request exception (lines 132-134): no
  summary is printed. -/
  | fatalApiError (st : SessionState) (e : String)
  /-- An uncaught Python exception (e.g. a `TypeError` from
  `order_pizza(**args)`): the process dies, no summary. -/
  | crashed (st : SessionState) (e : String)
  /-- The event script ran out while the program was blocked on an
  external event (the session is still in progress). -/
  | outOfScript (st : SessionState)
  /-- The script supplied an event of the wrong kind for the current
  blocking point; unreachable for well-formed scripts. -/
  | stuck (st : SessionState)
  deriving Repr, DecidableEq

/-- The state carried by an outcome. -/
def Outcome.state : Outcome → SessionState
  | .summary st => st
  | .fatalApiError st _ => st
  | .crashed st _ => st
  | .outOfScript st => st
  | .stuck st => st

/-- The parameter names of `order_pizza` (src/main.py line 42). -/
def orderPizzaParams : List String := ["size", "crust", "toppings", "sauces"]

/-- Keyword binding of the dynamic call `order_pizza(**args)`
(src/main.py line 149): `order_pizza` has exactly the parameters size,
crust, toppings, sauces, so the call raises `TypeError` when `args`
contains an unexpected key or misses a required one. -/
def kwBind (kvs : List (String × JVal)) :
    Except String (JVal × JVal × JVal × JVal) :=
  if kvs.all (fun kv => kv.1 ∈ orderPizzaParams) then
    match kvs.lookup "size", kvs.lookup "crust",
          kvs.lookup "toppings", kvs.lookup "sauces" with
    | some sv, some cv, some tv, some uv => .ok (sv, cv, tv, uv)
    | _, _, _, _ => .error "TypeError: missing required argument"
  else .error "TypeError: unexpected keyword argument"

/-- The dynamic call `order_pizza(**args)` on parsed JSON arguments:
keyword binding, then the body of `order_pizza`.  Values outside the
declared schema (size or crust not a string, toppings or sauces not an
array) are modelled coarsely as a failure: a non-string size has no
`lower` method and a non-array value no length, so the source raises
there; no claim quantifies over such payloads. -/
def callOrderPizza (kvs : List (String × JVal)) : Except String OrderResult :=
  match kwBind kvs with
  | .error e => .error e
  | .ok (sv, cv, tv, uv) =>
    match sv, cv, tv, uv with
    | .str size, .str crust, .arr toppings, .arr sauces =>
        .ok (order_pizza size crust toppings sauces)
    | _, _, _, _ => .error "TypeError: non-schema argument value"

/-- Where in the control flow of `main` the program is blocked:
the outer-loop `input()` (line 119), the completion request (line 126),
the inner-loop `input()` (line 161), or the "order another?" `input()`
(line 166). -/
inductive Mode where
  | outerRead
  | innerCall
  | innerRead
  | contRead
  deriving Repr, DecidableEq

/-- Append one message to the transcript. -/
def pushMsg (st : SessionState) (m : Msg) : SessionState :=
  { st with messages := st.messages ++ [m] }

/-- Append the assistant text of a response, when present
(src/main.py lines 139-141). -/
def pushContent (st : SessionState) : Option String → SessionState
  | none => st
  | some c => pushMsg st { role := "assistant", content := c }

/-- Record a successfully placed order (src/main.py lines 149-158):
append to `orders`, add its price to `total`, and append the serialized
result to the transcript as a function message. -/
def placeOrder (st : SessionState) (r : OrderResult) : SessionState :=
  { st with
    orders := st.orders ++ [r.order]
    total := st.total + r.order.price
    messages := st.messages ++
      [{ role := "function", content := "order_pizza result",
         name := some "order_pizza" }] }

/-- The nested conversation loop of `main` (src/main.py lines 118-168),
as a deterministic interpreter over the event script. -/
def run (st : SessionState) (m : Mode) : List Event → Outcome
  | [] => .outOfScript st
  | .line s :: rest =>
    match m with
    | .outerRead =>
      -- lines 119-122: strip; empty input re-prompts; else append user msg
      let u := pyStrip s
      if u = "" then run st .outerRead rest
      else run (pushMsg st { role := "user", content := u }) .innerCall rest
    | .innerRead =>
      -- lines 161-164: strip; empty input `continue`s the INNER loop,
      -- whose next statement is the completion request
      let u := pyStrip s
      if u = "" then run st .innerCall rest
      else run (pushMsg st { role := "user", content := u }) .innerCall rest
    | .contRead =>
      -- lines 166-168: `"yes"` after strip+lower re-enters the outer loop,
      -- anything else breaks out to the summary
      if pyLower (pyStrip s) = "yes" then run st .outerRead rest
      else .summary st
    | .innerCall => .stuck st
  | .api r :: rest =>
    match m with
    | .innerCall =>
      let st := { st with apiCalls := st.apiCalls + 1 }
      match r with
      | .error e => .fatalApiError st e          -- lines 132-134: return
      | .ok msg =>
        let st1 := pushContent st msg.content    -- lines 139-141
        match msg.function_call with
        | none => run st1 .innerRead rest        -- fall through to line 161
        | some .badJson =>
          -- lines 146-148: report and break the inner loop
          run st1 .contRead rest
        | some (.parsed kvs) =>
          match callOrderPizza kvs with
          | .error e => .crashed st1 e           -- uncaught TypeError
          | .ok result => run (placeOrder st1 result) .contRead rest
    | _ => .stuck st

/-- The seed system message of the transcript (src/main.py lines 111-113). -/
def systemMsg : Msg :=
  { role := "system"
    -- the quotation marks around the function name in the source string are
    -- elided here; no claim inspects this content
    content := "You are a helpful pizza-ordering assistant. Ask the user questions and place their order by calling order_pizza function when ready." }

/-- The initial state of a session (src/main.py lines 111-116): the
transcript seeded with the system message, no orders, zero total. -/
def initState : SessionState :=
  { messages := [systemMsg]
    orders := []
    total := 0
    apiCalls := 0 }

/-- Closed form of the price field of an `order_pizza` result. -/
lemma order_pizza_price (size crust : String) (t s : List String) :
    (order_pizza size crust t s).order.price
      = base_price_get (pyLower size)
        + 0.75 * (t.length : ℚ) + 0.5 * (s.length : ℚ) :=
  order_pizza_price_eq size t s

/-- With no toppings and no sauces the price is exactly the base price. -/
lemma order_pizza_price_empty (size crust : String) :
    (order_pizza size crust [] []).order.price
      = base_price_get (pyLower size) := by
  rw [order_pizza_price]
  norm_num

lemma base_price_get_small : base_price_get "small" = 5 := by
  unfold base_price_get
  rw [if_pos rfl]

lemma base_price_get_medium : base_price_get "medium" = 7 := by
  unfold base_price_get
  rw [if_neg (by decide), if_pos rfl]

lemma base_price_get_large : base_price_get "large" = 9 := by
  unfold base_price_get
  rw [if_neg (by decide), if_neg (by decide), if_pos rfl]

lemma base_price_get_xl : base_price_get "extra large" = 11 := by
  unfold base_price_get
  rw [if_neg (by decide), if_neg (by decide), if_neg (by decide), if_pos rfl]

/-! ## Claims about the Pricing Function -/

/-- C1: for every size string, crust string, list of topping strings and
list of sauce strings, `order_pizza` returns status "success", ETA
"20 minutes", and an order whose price is
`base_price(size) + 0.75 * |toppings| + 0.5 * |sauces|` rounded to 2
decimal places, with `base_price` the case-insensitive lookup of the spec
(`spec_price` and `spec_base_price` are written from the words of the
spec); in particular each of the four known sizes, in any letter case,
with empty toppings and sauces prices at 5, 7, 9, 11 respectively. -/
theorem C1_pricing_contract (size crust : String)
    (toppings sauces : List String) :
    (order_pizza size crust toppings sauces).status = "success" ∧
    (order_pizza size crust toppings sauces).eta = "20 minutes" ∧
    (order_pizza size crust toppings sauces).order.price
      = spec_price size toppings.length sauces.length ∧
    (pyLower size = "small" →
      (order_pizza size crust [] []).order.price = 5) ∧
    (pyLower size = "medium" →
      (order_pizza size crust [] []).order.price = 7) ∧
    (pyLower size = "large" →
      (order_pizza size crust [] []).order.price = 9) ∧
    (pyLower size = "extra large" →
      (order_pizza size crust [] []).order.price = 11) := by
  refine ⟨rfl, rfl, ?_, ?_, ?_, ?_, ?_⟩
  · rw [order_pizza_price, spec_price, ← base_price_get_eq_spec,
      order_pizza_price_eq]
  · intro h; rw [order_pizza_price_empty, h, base_price_get_small]
  · intro h; rw [order_pizza_price_empty, h, base_price_get_medium]
  · intro h; rw [order_pizza_price_empty, h, base_price_get_large]
  · intro h; rw [order_pizza_price_empty, h, base_price_get_xl]

/-- Witness for C1 at concrete inputs: the four known sizes in mixed
letter case, with empty toppings and sauces, price at 5, 7, 9, 11. -/
theorem C1_pricing_contract_witness :
    (order_pizza "SMALL" "thin" [] []).order.price = 5 ∧
    (order_pizza "mEdIuM" "thin" [] []).order.price = 7 ∧
    (order_pizza "Large" "stuffed" [] []).order.price = 9 ∧
    (order_pizza "EXTRA LARGE" "deep dish" [] []).order.price = 11 :=
  ⟨(C1_pricing_contract "SMALL" "thin" [] []).2.2.2.1 (by decide),
   (C1_pricing_contract "mEdIuM" "thin" [] []).2.2.2.2.1 (by decide),
   (C1_pricing_contract "Large" "stuffed" [] []).2.2.2.2.2.1 (by decide),
   (C1_pricing_contract "EXTRA LARGE" "deep dish" [] []).2.2.2.2.2.2
     (by decide)⟩

/-- C8: the Pricing Function is total, pure and idempotent.  Totality and
purity are witnessed by the embedding itself: `order_pizza` is a total
Lean function (the translation from the source needed no partiality and
no effects), and it yields a well-formed "success" result on every input;
idempotence for identical inputs is determinism of that function. -/
theorem C8_total_pure_idempotent (size crust : String)
    (toppings sauces : List String) :
    (order_pizza size crust toppings sauces).status = "success" ∧
    order_pizza size crust toppings sauces
      = order_pizza size crust toppings sauces :=
  ⟨rfl, rfl⟩

/-- C9: holding size and crust fixed, the price is monotonically
non-decreasing as elements are added to the toppings list or the sauces
list. -/
theorem C9_price_monotone (size crust : String) (t t' s s' : List String)
    (ht : t.length ≤ t'.length) (hs : s.length ≤ s'.length) :
    (order_pizza size crust t s).order.price
      ≤ (order_pizza size crust t' s').order.price := by
  rw [order_pizza_price, order_pizza_price]
  have ht' : (t.length : ℚ) ≤ (t'.length : ℚ) := by exact_mod_cast ht
  have hs' : (s.length : ℚ) ≤ (s'.length : ℚ) := by exact_mod_cast hs
  have h1 := mul_le_mul_of_nonneg_left ht' (show (0:ℚ) ≤ 0.75 by norm_num)
  have h2 := mul_le_mul_of_nonneg_left hs' (show (0:ℚ) ≤ 0.5 by norm_num)
  linarith

/-- Witness for C9: adding one topping and one sauce to an empty small
pizza does not decrease the price. -/
theorem C9_price_monotone_witness :
    (order_pizza "small" "thin" [] []).order.price
      ≤ (order_pizza "small" "thin" ["pepperoni"] ["marinara"]).order.price :=
  C9_price_monotone "small" "thin" [] ["pepperoni"] [] ["marinara"]
    (by decide) (by decide)

/-! ## Claims about name extraction -/

/-- C5: if the name-extraction call fails with a transport or API error,
the session proceeds with the raw typed input verbatim as the display
name; the same raw-input fallback is taken when the extracted name is
empty after trimming. -/
theorem C5_name_fallback (raw e content : String)
    (h : pyStrip content = "") :
    resolveName raw (.error e) = raw ∧
    resolveName raw (.ok content) = raw := by
  refine ⟨rfl, ?_⟩
  simp [resolveName, extract_name, h]

/-- Witness for C5: a concrete transport error and a whitespace-only
extraction result both fall back to the raw input. -/
theorem C5_name_fallback_witness :
    resolveName "Bob Smith" (.error "connection reset") = "Bob Smith" ∧
    resolveName "Bob Smith" (.ok "   ") = "Bob Smith" :=
  C5_name_fallback "Bob Smith" "connection reset" "   " (by decide)

/-! ## Claims about the conversation loop -/

/-- C3: when the function-call arguments fail to parse as JSON, the inner
loop exits without recording an order — the continuation is the
"order another?" prompt (`Mode.contRead`), not a terminal outcome — and
the orders list and total are unchanged; the transcript gains only the
optional assistant text of that response, nothing from the action
attempt itself. -/
theorem C3_parse_failure_abandons_turn (st : SessionState) (c : Option String)
    (rest : List Event) :
    ∃ st', run st .innerCall (.api (.ok ⟨c, some .badJson⟩) :: rest)
        = run st' .contRead rest
      ∧ st'.orders = st.orders ∧ st'.total = st.total
      ∧ st'.messages = st.messages ++
          (c.map fun t => ({ role := "assistant", content := t } : Msg)).toList := by
  refine ⟨pushContent { st with apiCalls := st.apiCalls + 1 } c,
    rfl, ?_, ?_, ?_⟩ <;> cases c <;> simp [pushContent, pushMsg]

/-- C4: a transport/API error raised by the negotiation completion call is
fatal: the run ends at once with the `fatalApiError` outcome (which is not
the summary outcome), and the transcript, orders and total are exactly as
before the call. -/
theorem C4_completion_error_fatal (st : SessionState) (e : String)
    (rest : List Event) :
    run st .innerCall (.api (.error e) :: rest)
        = .fatalApiError { st with apiCalls := st.apiCalls + 1 } e ∧
    (run st .innerCall (.api (.error e) :: rest)).state.messages
        = st.messages ∧
    (run st .innerCall (.api (.error e) :: rest)).state.orders = st.orders ∧
    (run st .innerCall (.api (.error e) :: rest)).state.total = st.total :=
  ⟨rfl, rfl, rfl, rfl⟩

/-- Amended C6: the "order another?" answer is matched after stripping and
lowercasing — `cont = input(...).strip().lower()` on src/main.py line 166 —
so exactly the answers whose stripped, lowercased form is "yes" re-enter
the order loop with the same transcript, and every other answer ends the
session with the summary.  (The claim says the match is case-sensitive;
`C6_counterexample` refutes that.) -/
theorem C6_order_another_case_insensitive (st : SessionState) (s : String)
    (rest : List Event) :
    (pyLower (pyStrip s) = "yes" →
      run st .contRead (.line s :: rest) = run st .outerRead rest) ∧
    (pyLower (pyStrip s) ≠ "yes" →
      run st .contRead (.line s :: rest) = .summary st) := by
  constructor <;> intro h <;> simp [run, h]

/-- Counterexample to C6 as stated: the answer "YES" differs from "yes",
so under a case-sensitive match it would have to end the session with the
summary; instead the loop re-enters the outer read (here running out of
script while blocked on the next user line), because line 166 lowercases
the answer before comparing.  A plainly non-"yes" answer does end the
session. -/
theorem C6_counterexample :
    run initState .contRead [Event.line "YES"] = .outOfScript initState ∧
    run initState .contRead [Event.line "nah"] = .summary initState := by
  constructor
  · have h : pyLower (pyStrip "YES") = "yes" := by decide
    simp [run, h]
  · have h : pyLower (pyStrip "nah") ≠ "yes" := by decide
    simp [run, h]

/-- Witness for the amended C6: a mixed-case answer with surrounding
whitespace re-enters the loop with the same transcript; another answer
ends the session. -/
theorem C6_order_another_witness :
    run initState .contRead [Event.line " Yes "]
        = run initState .outerRead [] ∧
    run initState .contRead [Event.line "no thanks"] = .summary initState :=
  ⟨(C6_order_another_case_insensitive initState " Yes " []).1 (by decide),
   (C6_order_another_case_insensitive initState "no thanks" []).2 (by decide)⟩

/-- Amended C7: an input line that is empty after stripping is never
appended to the transcript and changes no state.  At the outer-loop read
(src/main.py lines 119-121) the loop re-prompts without issuing a
completion request, as the claim says; at the inner-loop read (lines
161-163), however, `continue` restarts the inner loop, whose first
statement is the completion request, so the program immediately issues
another completion request with the unchanged transcript instead of
re-prompting.  (`C7_counterexample` refutes the claim as stated.) -/
theorem C7_empty_input (st : SessionState) (s : String) (rest : List Event)
    (h : pyStrip s = "") :
    run st .outerRead (.line s :: rest) = run st .outerRead rest ∧
    run st .innerRead (.line s :: rest) = run st .innerCall rest := by
  constructor <;> simp [run, h]

/-- Witness for the amended C7 at a concrete whitespace-only input line. -/
theorem C7_empty_input_witness :
    run initState .outerRead [Event.line "  "]
        = run initState .outerRead [] ∧
    run initState .innerRead [Event.line "  "]
        = run initState .innerCall [] :=
  C7_empty_input initState "  " [] (by decide)

/-- A schema-conformant parsed argument payload used by concrete scripts:
a small thin-crust pizza with no toppings and no sauces. -/
def okArgs : List (String × JVal) :=
  [("size", .str "small"), ("crust", .str "thin"),
   ("toppings", .arr []), ("sauces", .arr [])]

/-- Counterexample to C7 as stated: after an empty line at the inner-loop
read, the very next external event the program consumes is a completion
request — the request counter rises from 0 to 1 with no re-prompt in
between — contradicting "no completion request is issued for that empty
line"; and if that unprompted request returns an order call, an order is
recorded, so the state does advance. -/
theorem C7_counterexample :
    run initState .innerRead
        [Event.line "", Event.api (.ok ⟨none, none⟩)]
        = .outOfScript { initState with apiCalls := 1 } ∧
    (run initState .innerRead
        [Event.line "", Event.api (.ok ⟨none, some (.parsed okArgs)⟩)]
      ).state.orders.length = 1 := by
  constructor
  · rfl
  · rfl

/-! ## The session-totals invariant -/

/-- Sum of the prices of a list of orders. -/
def ordersTotal (orders : List Order) : ℚ := (orders.map Order.price).sum

/-- The session-totals invariant: the running total equals the exact sum
of the prices of the recorded orders. -/
def TotalsInv (st : SessionState) : Prop := st.total = ordersTotal st.orders

lemma totalsInv_pushContent (st : SessionState) (c : Option String)
    (h : TotalsInv st) : TotalsInv (pushContent st c) := by
  cases c
  · exact h
  · exact h

lemma pushContent_orders (st : SessionState) (c : Option String) :
    (pushContent st c).orders = st.orders := by
  cases c <;> rfl

lemma totalsInv_placeOrder (st : SessionState) (r : OrderResult)
    (h : TotalsInv st) : TotalsInv (placeOrder st r) := by
  simp only [TotalsInv, placeOrder, ordersTotal, List.map_append,
    List.sum_append, List.map_cons, List.map_nil, List.sum_cons,
    List.sum_nil] at h ⊢
  rw [h]
  ring

lemma lead_rfl {α : Type _} (l : List α) : l <+: l := ⟨[], List.append_nil _⟩

lemma lead_trans {α : Type _} {l₁ l₂ l₃ : List α} (h₁ : l₁ <+: l₂)
    (h₂ : l₂ <+: l₃) : l₁ <+: l₃ := by
  obtain ⟨t₁, e₁⟩ := h₁
  obtain ⟨t₂, e₂⟩ := h₂
  exact ⟨t₁ ++ t₂, by rw [← List.append_assoc, e₁, e₂]⟩

/-- C2: from any state satisfying the totals invariant, every run of the
loop — over any event script, from any blocking point — ends in a state
that still satisfies it, and the orders list only ever grows at its end
(every prior order is kept, in order).  The induction proves preservation
across each individual loop step: user turns, assistant text, successful
order placement, abandoned parse failures, and terminal outcomes. -/
theorem C2_totals_invariant (evs : List Event) (m : Mode) (st : SessionState)
    (h : TotalsInv st) :
    TotalsInv (run st m evs).state ∧
      st.orders <+: (run st m evs).state.orders := by
  induction evs generalizing m st with
  | nil => exact ⟨h, lead_rfl _⟩
  | cons ev rest ih =>
    cases ev with
    | line s =>
      cases m with
      | outerRead =>
        by_cases hs : pyStrip s = ""
        · simpa [run, hs] using ih .outerRead st h
        · simpa [run, hs] using
            ih .innerCall (pushMsg st { role := "user", content := pyStrip s }) h
      | innerRead =>
        by_cases hs : pyStrip s = ""
        · simpa [run, hs] using ih .innerCall st h
        · simpa [run, hs] using
            ih .innerCall (pushMsg st { role := "user", content := pyStrip s }) h
      | contRead =>
        by_cases hs : pyLower (pyStrip s) = "yes"
        · simpa [run, hs] using ih .outerRead st h
        · simp only [run, hs, if_false]
          exact ⟨h, lead_rfl _⟩
      | innerCall => exact ⟨h, lead_rfl _⟩
    | api r =>
      cases m with
      | outerRead => exact ⟨h, lead_rfl _⟩
      | innerRead => exact ⟨h, lead_rfl _⟩
      | contRead => exact ⟨h, lead_rfl _⟩
      | innerCall =>
        cases r with
        | error e => exact ⟨h, lead_rfl _⟩
        | ok msg =>
          obtain ⟨c, fc⟩ := msg
          have h1 : TotalsInv
              (pushContent { st with apiCalls := st.apiCalls + 1 } c) :=
            totalsInv_pushContent _ c h
          cases fc with
          | none =>
            have h2 := ih .innerRead _ h1
            refine ⟨h2.1, ?_⟩
            have h3 := h2.2
            rw [pushContent_orders] at h3
            exact h3
          | some fa =>
            cases fa with
            | badJson =>
              have h2 := ih .contRead _ h1
              refine ⟨h2.1, ?_⟩
              have h3 := h2.2
              rw [pushContent_orders] at h3
              exact h3
            | parsed kvs =>
              cases hco : callOrderPizza kvs with
              | error e =>
                simp only [run, hco, Outcome.state]
                refine ⟨h1, ?_⟩
                rw [pushContent_orders]
              | ok result =>
                have h2 := ih .contRead _ (totalsInv_placeOrder _ result h1)
                simp only [run, hco]
                refine ⟨h2.1, ?_⟩
                refine lead_trans ?_ h2.2
                show st.orders <+:
                  (pushContent { st with apiCalls := st.apiCalls + 1 } c).orders
                    ++ [result.order]
                rw [pushContent_orders]
                exact ⟨[result.order], rfl⟩

/-- Witness for C2: the initial state satisfies the invariant, and so
does the outcome of a concrete session that places one order and ends. -/
theorem C2_totals_invariant_witness :
    TotalsInv initState ∧
      (TotalsInv (run initState .outerRead
          [Event.line "hi", Event.api (.ok ⟨none, some (.parsed okArgs)⟩),
           Event.line "done"]).state ∧
        initState.orders <+:
          (run initState .outerRead
            [Event.line "hi", Event.api (.ok ⟨none, some (.parsed okArgs)⟩),
             Event.line "done"]).state.orders) :=
  ⟨rfl, C2_totals_invariant
    [Event.line "hi", Event.api (.ok ⟨none, some (.parsed okArgs)⟩),
     Event.line "done"] .outerRead initState rfl⟩

/-! ## The dynamic-unpacking crash path -/

/-- A parsed argument object that misses a required parameter of
`order_pizza`, or carries a key that is not a parameter of it, makes the
keyword binding of `order_pizza(**args)` raise a `TypeError`. -/
lemma kwBind_error_of_bad_keys (kvs : List (String × JVal))
    (h : (∃ k ∈ orderPizzaParams, kvs.lookup k = none) ∨
         (∃ kv ∈ kvs, kv.1 ∉ orderPizzaParams)) :
    ∃ e, kwBind kvs = .error e := by
  unfold kwBind
  by_cases hall : kvs.all (fun kv => kv.1 ∈ orderPizzaParams) = true
  · rw [if_pos hall]
    rcases h with ⟨k, hk, hnone⟩ | ⟨kv, hmem, hnot⟩
    · simp only [orderPizzaParams, List.mem_cons, List.not_mem_nil,
        or_false] at hk
      rcases hk with rfl | rfl | rfl | rfl <;>
        · split
          · simp_all
          · exact ⟨_, rfl⟩
    · exfalso
      simp only [List.all_eq_true, decide_eq_true_eq] at hall
      exact hnot (hall kv hmem)
  · rw [if_neg hall]
    exact ⟨_, rfl⟩

/-- C10: if the function-call arguments parse as JSON but the object
misses one of size/crust/toppings/sauces or carries any extra key, the
dynamic keyword unpacking into `order_pizza` raises an uncaught
`TypeError`: the run ends in the `crashed` outcome — the process dies
with no summary and no further state change beyond the optional
assistant text of that response. -/
theorem C10_bad_keys_crash (st : SessionState) (c : Option String)
    (kvs : List (String × JVal)) (rest : List Event)
    (h : (∃ k ∈ orderPizzaParams, kvs.lookup k = none) ∨
         (∃ kv ∈ kvs, kv.1 ∉ orderPizzaParams)) :
    ∃ e, run st .innerCall (.api (.ok ⟨c, some (.parsed kvs)⟩) :: rest)
        = .crashed (pushContent { st with apiCalls := st.apiCalls + 1 } c) e := by
  obtain ⟨e, he⟩ := kwBind_error_of_bad_keys kvs h
  have hc : callOrderPizza kvs = .error e := by
    unfold callOrderPizza
    rw [he]
  refine ⟨e, ?_⟩
  simp [run, hc]

/-- Witness for C10: a payload holding only a size key (missing crust,
toppings and sauces) crashes the session. -/
theorem C10_bad_keys_crash_witness :
    ∃ e, run initState .innerCall
        [Event.api (.ok ⟨none, some (.parsed [("size", JVal.str "small")])⟩)]
        = .crashed
            (pushContent { initState with apiCalls := initState.apiCalls + 1 }
              none) e :=
  C10_bad_keys_crash initState none [("size", JVal.str "small")] []
    (Or.inl ⟨"crust", by decide, by decide⟩)

end Pizza
